import Mathlib

/-!
# The extender plugin of the volcano scheduler

A shallow embedding of `pkg/scheduler/plugins/extender/extender.go`.

* Go values are Lean values; a Go pointer that the code dereferences without a
  nil check is the value itself, a pointer or slice or map that the code
  compares with nil is an `Option`.
* A Go `error` made by `errors.New`, `fmt.Errorf` or a library is a `GoError`
  holding its `Error()` text; `nil` is `none`.
* The network, `encoding/json` and `net/http` are outside the plugin: what they
  answer is read from a `World`.  Every function that can reach `send` returns,
  next to its Go result, the list of HTTP requests it issued.
* `klog` output is not modelled.
-/

namespace Extender

/-! ## Constants -/

/-- PluginName indicates name of volcano scheduler plugin. -/
def PluginName : String := "extender"

/-- The response body cap of `send`: 10MB, written `10 << 20` in the source. -/
def maxBodySize : Nat := 10 <<< 20

/-- The constant `http.StatusOK`. -/
def StatusOK : Nat := 200

/-- The constant `api.Success`: the source notes next to its use that an unset code
"will be 0 for default", the value compared with `api.Success`. -/
def Success : Int := 0

/-- Integer constants of the packages `api` and `util` that the plugin names but
that are declared outside the files at hand: `api.Error`, `util.Permit`,
`util.Abstain`, `util.Reject`.  Their values are a parameter of the model. -/
structure Constants where
  Error : Int
  Permit : Int
  Abstain : Int
  Reject : Int
deriving DecidableEq, Repr

/-! ## Scheduler entities -/

/-- A `resource.Quantity`; the plugin never reads it. -/
structure Quantity where
  milli : Int
deriving DecidableEq, Repr

/-- A `corev1.ResourceList`, a Go map from resource name to quantity, as the list of
its entries in the order a `range` visits them. -/
abbrev ResourceList := List (String × Quantity)

/-- The type `corev1.ResourceRequirements`. -/
structure ResourceRequirements where
  Limits : ResourceList
  Requests : ResourceList
deriving DecidableEq, Repr

/-- The type `corev1.Container`, with the fields the plugin reads. -/
structure Container where
  Name : String
  Resources : ResourceRequirements
deriving DecidableEq, Repr

/-- The type `corev1.PodSpec`, with the fields the plugin reads. -/
structure PodSpec where
  InitContainers : List Container
  Containers : List Container
deriving DecidableEq, Repr

/-- The type `corev1.Pod`. -/
structure Pod where
  Spec : PodSpec
deriving DecidableEq, Repr

/-- The type `api.TaskInfo`: a task and the pod it was built from. -/
structure TaskInfo where
  Namespace : String
  Name : String
  Pod : Pod
deriving DecidableEq, Repr

/-- The type `api.NodeInfo`. -/
structure NodeInfo where
  Name : String
deriving DecidableEq, Repr

/-- The type `api.JobInfo`. -/
structure JobInfo where
  UID : String
deriving DecidableEq, Repr

/-- The type `api.QueueInfo`. -/
structure QueueInfo where
  UID : String
deriving DecidableEq, Repr

/-- The type `api.NamespaceInfo`. -/
structure NamespaceInfo where
  Name : String
deriving DecidableEq, Repr

/-- A Go `float64`, carried as its bit pattern: the plugin passes scores on and does
no arithmetic on them. -/
structure Float64 where
  bits : Nat
deriving DecidableEq, Repr

/-! ## Errors -/

/-- A Go `error` other than a fit error, identified with its `Error()` text. -/
structure GoError where
  Error : String
deriving DecidableEq, Repr

/-- The function `errors.New`. -/
def errors.New (text : String) : GoError := ⟨text⟩

/-- The type `api.Status`, as the predicate handler fills it. -/
structure Status where
  Code : Int
  Reason : String
  Plugin : String
deriving DecidableEq, Repr

/-- A fit error.  Its two constructors `api.NewFitError` and
`api.NewFitErrWithStatus` are declared in package `api`, outside the files at
hand; a value is the constructor call with the arguments the plugin passes. -/
inductive FitError where
  | NewFitError (task : TaskInfo) (node : NodeInfo) (message : List String)
  | NewFitErrWithStatus (task : TaskInfo) (node : NodeInfo) (sts : List Status)
deriving DecidableEq, Repr

/-! ## Configuration -/

/-- The type `extenderConfig`.  `managedResources` is a `sets.Set[string]`, kept as
the list of its members; `httpTimeout` is in nanoseconds. -/
structure extenderConfig where
  urlPrefix : String
  httpTimeout : Nat
  onSessionOpenVerb : String
  onSessionCloseVerb : String
  predicateVerb : String
  prioritizeVerb : String
  preemptableVerb : String
  reclaimableVerb : String
  queueOverusedVerb : String
  jobEnqueueableVerb : String
  jobReadyVerb : String
  allocateFuncVerb : String
  deallocateFuncVerb : String
  ignorable : Bool
  managedResources : List String
deriving DecidableEq, Repr

/-- The type `extenderPlugin`; its `http.Client` is the `World` passed to `send`. -/
structure extenderPlugin where
  config : extenderConfig
deriving DecidableEq, Repr

/-- The method `Name`. -/
def extenderPlugin.Name (_ep : extenderPlugin) : String := PluginName

/-! ## Requests and responses of the protocol -/

/-- The request envelopes handed to `send`, one constructor per request type. -/
inductive Payload where
  | OnSessionOpenRequest (Jobs : List (String × JobInfo)) (Nodes : List (String × NodeInfo))
      (Queues : List (String × QueueInfo)) (NamespaceInfo : List (String × NamespaceInfo))
      (RevocableNodes : List (String × NodeInfo))
  | OnSessionCloseRequest
  | PredicateRequest (Task : TaskInfo) (Node : NodeInfo)
  | PrioritizeRequest (Task : TaskInfo) (Nodes : List NodeInfo)
  | PreemptableRequest (Evictor : TaskInfo) (Evictees : List TaskInfo)
  | ReclaimableRequest (Evictor : TaskInfo) (Evictees : List TaskInfo)
  | JobEnqueueableRequest (Job : JobInfo)
  | QueueOverusedRequest (Queue : QueueInfo)
  | JobReadyRequest (Job : JobInfo)
  | EventHandlerRequest (Task : TaskInfo)
deriving DecidableEq, Repr

/-- The type `PredicateResponse`; the default value is Go's zero value. -/
structure PredicateResponse where
  ErrorMessage : String := ""
  Code : Int := 0
deriving DecidableEq, Repr

/-- The type `PrioritizeResponse`; `none` is the nil map. -/
structure PrioritizeResponse where
  NodeScore : Option (List (String × Float64)) := none
  ErrorMessage : String := ""
deriving DecidableEq, Repr

/-- The type `PreemptableResponse`; `none` is the nil slice. -/
structure PreemptableResponse where
  Status : Int := 0
  Victims : Option (List TaskInfo) := none
deriving DecidableEq, Repr

/-- The type `ReclaimableResponse`; `none` is the nil slice. -/
structure ReclaimableResponse where
  Status : Int := 0
  Victims : Option (List TaskInfo) := none
deriving DecidableEq, Repr

/-- The type `JobEnqueueableResponse`. -/
structure JobEnqueueableResponse where
  Status : Int := 0
deriving DecidableEq, Repr

/-- The type `QueueOverusedResponse`. -/
structure QueueOverusedResponse where
  Overused : Bool := false
deriving DecidableEq, Repr

/-- The type `JobReadyResponse`. -/
structure JobReadyResponse where
  Status : Bool := false
deriving DecidableEq, Repr

/-- The type `EventHandlerResponse`. -/
structure EventHandlerResponse where
  ErrorMessage : String := ""
deriving DecidableEq, Repr

/-! ## The world outside the plugin -/

/-- An `http.Request` as `send` builds it. -/
structure Request where
  Method : String
  URL : String
  ContentType : String
  Body : String
deriving DecidableEq, Repr

/-- An `http.Response` as `send` reads it. -/
structure Response where
  StatusCode : Nat
  Body : String
deriving DecidableEq, Repr

/-- A response body behind `http.MaxBytesReader`: the bytes and the cap on how many
of them may be read. -/
structure Reader where
  data : String
  limit : Nat
deriving DecidableEq, Repr

/-- The function `http.MaxBytesReader`. -/
def MaxBytesReader (body : String) (n : Nat) : Reader := ⟨body, n⟩

/-- What `json.NewDecoder(r).Decode(v)` does at one Go type: from the reader and the
value `v` points to, the value afterwards and the error text, if any. -/
abbrev Decoder (R : Type) := Reader → R → R × Option String

/-- Everything `send` obtains from outside the plugin: `json.Marshal`, the check
of `http.NewRequest`, the round trip of `http.Client.Do` (an error text or the
response) and the JSON decoder at each response type. -/
structure World where
  Marshal : Payload → Except String String
  NewRequest : String → String → Option String
  Do : Request → Except String Response
  DecodePredicate : Decoder PredicateResponse
  DecodePrioritize : Decoder PrioritizeResponse
  DecodePreemptable : Decoder PreemptableResponse
  DecodeReclaimable : Decoder ReclaimableResponse
  DecodeJobEnqueueable : Decoder JobEnqueueableResponse
  DecodeQueueOverused : Decoder QueueOverusedResponse
  DecodeJobReady : Decoder JobReadyResponse
  DecodeEventHandler : Decoder EventHandlerResponse

/-- The outcome of one `send`: the returned error, the value in the result slot
afterwards, and the requests handed to the HTTP client. -/
structure SendResult (R : Type) where
  err : Option GoError
  resp : R
  sent : List Request

/-! ## Transport -/

/-- The function `strings.TrimRight`: drop every trailing character that occurs in
`cutset`. -/
def TrimRight (s cutset : String) : String :=
  ⟨(s.data.reverse.dropWhile (fun c => cutset.data.contains c)).reverse⟩

/-- The method `send`.  `result` is the decoder of the slot's type when the slot is
non-nil and `none` for a nil slot; `resp` is the value the slot points to. -/
def extenderPlugin.send {R : Type} (ep : extenderPlugin) (w : World) (action : String)
    (args : Payload) (result : Option (Decoder R)) (resp : R) : SendResult R :=
  match w.Marshal args with
  | .error e => ⟨some ⟨e⟩, resp, []⟩
  | .ok out =>
    let url := TrimRight ep.config.urlPrefix "/" ++ "/" ++ action
    match w.NewRequest "POST" url with
    | some e => ⟨some ⟨e⟩, resp, []⟩
    | none =>
      let req : Request := ⟨"POST", url, "application/json", out⟩
      match w.Do req with
      | .error e => ⟨some ⟨e⟩, resp, [req]⟩
      | .ok r =>
        if r.StatusCode ≠ StatusOK then
          ⟨some ⟨"failed " ++ action ++ " with extender at URL " ++ url ++ ", code "
            ++ toString r.StatusCode⟩, resp, [req]⟩
        else
          match result with
          | some decode =>
            let d := decode (MaxBytesReader r.Body maxBodySize) resp
            ⟨d.2.map GoError.mk, d.1, [req]⟩
          | none => ⟨none, resp, [req]⟩

/-! ## Interest filter -/

/-- The method `hasResourcesInList`: checks if any resource in the given ResourceList
is managed by this extender. -/
def extenderPlugin.hasResourcesInList (ep : extenderPlugin) : ResourceList → Bool
  | [] => false
  | (resourceName, _) :: rest =>
    if ep.config.managedResources.contains resourceName then true
    else ep.hasResourcesInList rest

/-- The method `hasManagedResources`. -/
def extenderPlugin.hasManagedResources (ep : extenderPlugin) : List Container → Bool
  | [] => false
  | container :: rest =>
    if ep.hasResourcesInList container.Resources.Requests ||
        ep.hasResourcesInList container.Resources.Limits then true
    else ep.hasManagedResources rest

/-- The method `IsInterested`: returns true if at least one extended resource
requested by this pod is managed by this extender. -/
def extenderPlugin.IsInterested (ep : extenderPlugin) (task : TaskInfo) : Bool :=
  if ep.config.managedResources.length == 0 then true
  else if ep.hasManagedResources task.Pod.Spec.Containers then true
  else if ep.hasManagedResources task.Pod.Spec.InitContainers then true
  else false

/-! ## Hook handlers

Each handler is the function literal that `OnSessionOpen` registers, named after
the session hook it is registered for.  The result is paired with the requests
issued. -/

/-- The type `api.PredicateFn`, here with the world and the request trace. -/
abbrev PredicateFn := World → TaskInfo → NodeInfo → Option FitError × List Request

/-- The type `api.BatchNodeOrderFn`; `none` in the first place is the nil map. -/
abbrev BatchNodeOrderFn :=
  World → TaskInfo → List NodeInfo →
    (Option (List (String × Float64)) × Option GoError) × List Request

/-- The type `api.EvictableFn`; `none` in the first place is the nil slice. -/
abbrev EvictableFn :=
  World → TaskInfo → List TaskInfo → (Option (List TaskInfo) × Int) × List Request

/-- The type `api.VoteFn` of the job-enqueueable hook, applied to a job. -/
abbrev VoteFn := World → JobInfo → Int × List Request

/-- The type `api.ValidateFn` of the queue-overused hook, applied to a queue. -/
abbrev OverusedFn := World → QueueInfo → Bool × List Request

/-- The type `api.ValidateFn` of the job-ready hook, applied to a job. -/
abbrev JobReadyFn := World → JobInfo → Bool × List Request

/-- The predicate handler, `extender.go` lines 187-212. -/
def extenderPlugin.predicateFn (k : Constants) (ep : extenderPlugin) : PredicateFn :=
  fun w task node =>
    if !ep.IsInterested task then (none, [])
    else
      let r := ep.send w ep.config.predicateVerb (.PredicateRequest task node)
        (some w.DecodePredicate) ({} : PredicateResponse)
      match r.err with
      | some err =>
        if ep.config.ignorable then (none, r.sent)
        else (some (.NewFitError task node [err.Error]), r.sent)
      | none =>
        if r.resp.ErrorMessage.utf8ByteSize == 0 then (none, r.sent)
        else
          let Code := if r.resp.Code = Success then k.Error else r.resp.Code
          (some (.NewFitErrWithStatus task node [⟨Code, r.resp.ErrorMessage, PluginName⟩]),
            r.sent)

/-- The prioritize handler, `extender.go` lines 216-236. -/
def extenderPlugin.batchNodeOrderFn (ep : extenderPlugin) : BatchNodeOrderFn :=
  fun w task nodes =>
    if !ep.IsInterested task then ((some [], none), [])
    else
      let r := ep.send w ep.config.prioritizeVerb (.PrioritizeRequest task nodes)
        (some w.DecodePrioritize) ({} : PrioritizeResponse)
      match r.err with
      | some err =>
        if ep.config.ignorable then ((none, none), r.sent)
        else ((none, some err), r.sent)
      | none =>
        if r.resp.ErrorMessage == "" && r.resp.NodeScore != none then
          ((r.resp.NodeScore, none), r.sent)
        else ((none, some (errors.New r.resp.ErrorMessage)), r.sent)

/-- The preemptable handler, `extender.go` lines 240-257. -/
def extenderPlugin.preemptableFn (k : Constants) (ep : extenderPlugin) : EvictableFn :=
  fun w evictor evictees =>
    if !ep.IsInterested evictor then ((some [], k.Abstain), [])
    else
      let r := ep.send w ep.config.preemptableVerb (.PreemptableRequest evictor evictees)
        (some w.DecodePreemptable) ({} : PreemptableResponse)
      match r.err with
      | some _ =>
        if ep.config.ignorable then ((none, k.Permit), r.sent)
        else ((none, k.Reject), r.sent)
      | none => ((r.resp.Victims, r.resp.Status), r.sent)

/-- The reclaimable handler, `extender.go` lines 261-278. -/
def extenderPlugin.reclaimableFn (k : Constants) (ep : extenderPlugin) : EvictableFn :=
  fun w evictor evictees =>
    if !ep.IsInterested evictor then ((some [], k.Abstain), [])
    else
      let r := ep.send w ep.config.reclaimableVerb (.ReclaimableRequest evictor evictees)
        (some w.DecodeReclaimable) ({} : ReclaimableResponse)
      match r.err with
      | some _ =>
        if ep.config.ignorable then ((none, k.Permit), r.sent)
        else ((none, k.Reject), r.sent)
      | none => ((r.resp.Victims, r.resp.Status), r.sent)

/-- The job-enqueueable handler, `extender.go` lines 282-296. -/
def extenderPlugin.jobEnqueueableFn (k : Constants) (ep : extenderPlugin) : VoteFn :=
  fun w job =>
    let r := ep.send w ep.config.jobEnqueueableVerb (.JobEnqueueableRequest job)
      (some w.DecodeJobEnqueueable) ({} : JobEnqueueableResponse)
    match r.err with
    | some _ =>
      if ep.config.ignorable then (k.Permit, r.sent)
      else (k.Reject, r.sent)
    | none => (r.resp.Status, r.sent)

/-- The queue-overused handler, `extender.go` lines 300-311. -/
def extenderPlugin.overusedFn (ep : extenderPlugin) : OverusedFn :=
  fun w queue =>
    let r := ep.send w ep.config.queueOverusedVerb (.QueueOverusedRequest queue)
      (some w.DecodeQueueOverused) ({} : QueueOverusedResponse)
    match r.err with
    | some _ => (!ep.config.ignorable, r.sent)
    | none => (r.resp.Overused, r.sent)

/-- The job-ready handler, `extender.go` lines 315-326. -/
def extenderPlugin.jobReadyFn (ep : extenderPlugin) : JobReadyFn :=
  fun w job =>
    let r := ep.send w ep.config.jobReadyVerb (.JobReadyRequest job)
      (some w.DecodeJobReady) ({} : JobReadyResponse)
    match r.err with
    | some _ => (!ep.config.ignorable, r.sent)
    | none => (r.resp.Status, r.sent)

/-! ## Lifecycle events -/

/-- The type `framework.Event`: the affected task and the failure slot. -/
structure Event where
  Task : TaskInfo
  Err : Option GoError
deriving DecidableEq, Repr

/-- A callback of `framework.EventHandler`.  The argument is `none` for a nil event;
the result is the event afterwards. -/
abbrev EventFn := World → Option Event → Option Event × List Request

/-- The type `framework.EventHandler`; `none` is a nil callback. -/
structure EventHandler where
  AllocateFunc : Option EventFn := none
  DeallocateFunc : Option EventFn := none

/-- The closure `eventHandlerFunc` of `addEventHandler`, `extender.go` lines 415-444. -/
def eventHandlerFunc (ep : extenderPlugin) (funcName : String) : EventFn :=
  fun w event =>
    match event with
    | none => (none, [])
    | some event =>
      if !ep.IsInterested event.Task then (some event, [])
      else
        let verb :=
          if funcName = "AllocateFunc" then ep.config.allocateFuncVerb
          else if funcName = "DeallocateFunc" then ep.config.deallocateFuncVerb
          else ""
        let r := ep.send w verb (.EventHandlerRequest event.Task)
          (some w.DecodeEventHandler) ({} : EventHandlerResponse)
        let event :=
          match r.err with
          | some err => if !ep.config.ignorable then { event with Err := some err } else event
          | none => event
        let event :=
          if r.resp.ErrorMessage ≠ "" then
            { event with Err := some (errors.New r.resp.ErrorMessage) }
          else event
        (some event, r.sent)

/-! ## Session -/

/-- One call of a registration entry point of the session. -/
inductive Registration where
  | AddPredicateFn (name : String) (fn : PredicateFn)
  | AddBatchNodeOrderFn (name : String) (fn : BatchNodeOrderFn)
  | AddPreemptableFn (name : String) (fn : EvictableFn)
  | AddReclaimableFn (name : String) (fn : EvictableFn)
  | AddJobEnqueueableFn (name : String) (fn : VoteFn)
  | AddOverusedFn (name : String) (fn : OverusedFn)
  | AddJobReadyFn (name : String) (fn : JobReadyFn)
  | AddEventHandler (eh : EventHandler)

/-- The kinds of registration. -/
inductive HookKind where
  | predicate
  | prioritize
  | preemptable
  | reclaimable
  | jobEnqueueable
  | queueOverused
  | jobReady
  | eventHandler
deriving DecidableEq, Repr

/-- The hook a registration call attaches a handler to. -/
def Registration.kind : Registration → HookKind
  | .AddPredicateFn _ _ => .predicate
  | .AddBatchNodeOrderFn _ _ => .prioritize
  | .AddPreemptableFn _ _ => .preemptable
  | .AddReclaimableFn _ _ => .reclaimable
  | .AddJobEnqueueableFn _ _ => .jobEnqueueable
  | .AddOverusedFn _ _ => .queueOverused
  | .AddJobReadyFn _ _ => .jobReady
  | .AddEventHandler _ => .eventHandler

/-- The plugin name a hook registration is made under. -/
def Registration.plugin : Registration → Option String
  | .AddPredicateFn n _ => some n
  | .AddBatchNodeOrderFn n _ => some n
  | .AddPreemptableFn n _ => some n
  | .AddReclaimableFn n _ => some n
  | .AddJobEnqueueableFn n _ => some n
  | .AddOverusedFn n _ => some n
  | .AddJobReadyFn n _ => some n
  | .AddEventHandler _ => none

/-- The event handler a registration call hands over, for `AddEventHandler`. -/
def Registration.eventHandler : Registration → Option EventHandler
  | .AddEventHandler eh => some eh
  | _ => none

/-- Modelled from the spec: the type `framework.Session` is declared outside the files
at hand.  The spec gives it as the owner of the job, node and queue inventories and
as "the framework's session object exposing hook-registration entry points (one per
hook kind) and an event-handler registration entry point"; what has been
registered is kept as the sequence of registration calls, oldest first. -/
structure Session where
  Jobs : List (String × JobInfo)
  Nodes : List (String × NodeInfo)
  Queues : List (String × QueueInfo)
  NamespaceInfo : List (String × NamespaceInfo)
  RevocableNodes : List (String × NodeInfo)
  registered : List Registration

/-- Modelled from the spec: the entry point `Session.AddPredicateFn`, declared outside
the files at hand, records the registration. -/
def Session.AddPredicateFn (ssn : Session) (name : String) (fn : PredicateFn) : Session :=
  { ssn with registered := ssn.registered ++ [.AddPredicateFn name fn] }

/-- Modelled from the spec: the entry point `Session.AddBatchNodeOrderFn`, declared
outside the files at hand, records the registration. -/
def Session.AddBatchNodeOrderFn (ssn : Session) (name : String) (fn : BatchNodeOrderFn) :
    Session :=
  { ssn with registered := ssn.registered ++ [.AddBatchNodeOrderFn name fn] }

/-- Modelled from the spec: the entry point `Session.AddPreemptableFn`, declared
outside the files at hand, records the registration. -/
def Session.AddPreemptableFn (ssn : Session) (name : String) (fn : EvictableFn) : Session :=
  { ssn with registered := ssn.registered ++ [.AddPreemptableFn name fn] }

/-- Modelled from the spec: the entry point `Session.AddReclaimableFn`, declared
outside the files at hand, records the registration. -/
def Session.AddReclaimableFn (ssn : Session) (name : String) (fn : EvictableFn) : Session :=
  { ssn with registered := ssn.registered ++ [.AddReclaimableFn name fn] }

/-- Modelled from the spec: the entry point `Session.AddJobEnqueueableFn`, declared
outside the files at hand, records the registration. -/
def Session.AddJobEnqueueableFn (ssn : Session) (name : String) (fn : VoteFn) : Session :=
  { ssn with registered := ssn.registered ++ [.AddJobEnqueueableFn name fn] }

/-- Modelled from the spec: the entry point `Session.AddOverusedFn`, declared outside
the files at hand, records the registration. -/
def Session.AddOverusedFn (ssn : Session) (name : String) (fn : OverusedFn) : Session :=
  { ssn with registered := ssn.registered ++ [.AddOverusedFn name fn] }

/-- Modelled from the spec: the entry point `Session.AddJobReadyFn`, declared outside
the files at hand, records the registration. -/
def Session.AddJobReadyFn (ssn : Session) (name : String) (fn : JobReadyFn) : Session :=
  { ssn with registered := ssn.registered ++ [.AddJobReadyFn name fn] }

/-- Modelled from the spec: the entry point `Session.AddEventHandler`, declared outside
the files at hand, records the registration. -/
def Session.AddEventHandler (ssn : Session) (eh : EventHandler) : Session :=
  { ssn with registered := ssn.registered ++ [.AddEventHandler eh] }

/-- The function `addEventHandler`, `extender.go` lines 410-456. -/
def addEventHandler (ssn : Session) (ep : extenderPlugin) : Session :=
  let eventHandler : EventHandler := {}
  let eventHandler :=
    if ep.config.allocateFuncVerb ≠ "" then
      { eventHandler with AllocateFunc := some (eventHandlerFunc ep "AllocateFunc") }
    else eventHandler
  let eventHandler :=
    if ep.config.deallocateFuncVerb ≠ "" then
      { eventHandler with DeallocateFunc := some (eventHandlerFunc ep "DeallocateFunc") }
    else eventHandler
  ssn.AddEventHandler eventHandler

/-- The method `OnSessionOpen`, `extender.go` lines 169-330: the session afterwards
and the requests issued while opening. -/
def extenderPlugin.OnSessionOpen (k : Constants) (ep : extenderPlugin) (w : World)
    (ssn : Session) : Session × List Request :=
  let opened : Bool × List Request :=
    if ep.config.onSessionOpenVerb ≠ "" then
      let r := ep.send w ep.config.onSessionOpenVerb
        (.OnSessionOpenRequest ssn.Jobs ssn.Nodes ssn.Queues ssn.NamespaceInfo ssn.RevocableNodes)
        (none : Option (Decoder Unit)) ()
      (r.err.isSome && !ep.config.ignorable, r.sent)
    else (false, [])
  if opened.1 then (ssn, opened.2)
  else
    let ssn :=
      if ep.config.predicateVerb ≠ "" then ssn.AddPredicateFn ep.Name (ep.predicateFn k)
      else ssn
    let ssn :=
      if ep.config.prioritizeVerb ≠ "" then ssn.AddBatchNodeOrderFn ep.Name ep.batchNodeOrderFn
      else ssn
    let ssn :=
      if ep.config.preemptableVerb ≠ "" then ssn.AddPreemptableFn ep.Name (ep.preemptableFn k)
      else ssn
    let ssn :=
      if ep.config.reclaimableVerb ≠ "" then ssn.AddReclaimableFn ep.Name (ep.reclaimableFn k)
      else ssn
    let ssn :=
      if ep.config.jobEnqueueableVerb ≠ "" then
        ssn.AddJobEnqueueableFn ep.Name (ep.jobEnqueueableFn k)
      else ssn
    let ssn :=
      if ep.config.queueOverusedVerb ≠ "" then ssn.AddOverusedFn ep.Name ep.overusedFn
      else ssn
    let ssn :=
      if ep.config.jobReadyVerb ≠ "" then ssn.AddJobReadyFn ep.Name ep.jobReadyFn
      else ssn
    (addEventHandler ssn ep, opened.2)

/-- The method `OnSessionClose`, `extender.go` lines 332-338: the requests issued. -/
def extenderPlugin.OnSessionClose (ep : extenderPlugin) (w : World) (_ssn : Session) :
    List Request :=
  if ep.config.onSessionCloseVerb ≠ "" then
    (ep.send w ep.config.onSessionCloseVerb .OnSessionCloseRequest
      (none : Option (Decoder Unit)) ()).sent
  else []

/-! ## Reading fit errors -/

/-- Whether a fit error names the plugin `name`: as the `Plugin` of a status it was
given, or inside a message text it was given. -/
def FitError.names (name : String) : FitError → Bool
  | .NewFitError _ _ message => message.any (fun m => decide (name.data <:+: m.data))
  | .NewFitErrWithStatus _ _ sts => sts.any (fun st => st.Plugin == name)

/-! ## Concrete inputs -/

/-- A world in which every payload marshals to an empty body, every URL is accepted,
the extender answers every request with `reply`, and the decoders read the whole
body as the error message at the response types that have one and leave the other
response types at their zero value. -/
def World.echo (reply : Except String Response) : World where
  Marshal := fun _ => .ok ""
  NewRequest := fun _ _ => none
  Do := fun _ => reply
  DecodePredicate := fun r v => ({ v with ErrorMessage := r.data }, none)
  DecodePrioritize := fun r v => ({ v with ErrorMessage := r.data }, none)
  DecodePreemptable := fun _ v => (v, none)
  DecodeReclaimable := fun _ v => (v, none)
  DecodeJobEnqueueable := fun _ v => (v, none)
  DecodeQueueOverused := fun _ v => (v, none)
  DecodeJobReady := fun _ v => (v, none)
  DecodeEventHandler := fun r v => ({ v with ErrorMessage := r.data }, none)

/-- The values upstream gives the named integer constants. -/
def demoConstants : Constants := ⟨1, 1, 0, -1⟩

/-- A configuration with every verb set, the given failure policy and the given
managed resources. -/
def demoPlugin (ignorable : Bool) (managedResources : List String) : extenderPlugin :=
  ⟨{ urlPrefix := "http://127.0.0.1/", httpTimeout := 1000000000,
     onSessionOpenVerb := "onSessionOpen", onSessionCloseVerb := "onSessionClose",
     predicateVerb := "predicate", prioritizeVerb := "prioritize",
     preemptableVerb := "preemptable", reclaimableVerb := "reclaimable",
     queueOverusedVerb := "queueOverused", jobEnqueueableVerb := "jobEnqueueable",
     jobReadyVerb := "jobReady", allocateFuncVerb := "allocate",
     deallocateFuncVerb := "deallocate", ignorable := ignorable,
     managedResources := managedResources }⟩

/-- A container asking for the given resource names, as requests and as limits. -/
def demoContainer (name : String) (requests limits : List String) : Container :=
  ⟨name, ⟨limits.map (fun r => (r, ⟨1000⟩)), requests.map (fun r => (r, ⟨1000⟩))⟩⟩

/-- A task whose only container requests cpu and memory. -/
def cpuTask : TaskInfo :=
  ⟨"default", "cpu-task", ⟨⟨[], [demoContainer "main" ["cpu", "memory"] ["cpu"]]⟩⟩⟩

/-- A task whose init container has a limit on `nvidia.com/gpu`. -/
def gpuTask : TaskInfo :=
  ⟨"default", "gpu-task",
    ⟨⟨[demoContainer "init" [] ["nvidia.com/gpu"]], [demoContainer "main" ["cpu"] []]⟩⟩⟩

/-- A node. -/
def demoNode : NodeInfo := ⟨"node-1"⟩

/-- A job. -/
def demoJob : JobInfo := ⟨"job-1"⟩

/-- A queue. -/
def demoQueue : QueueInfo := ⟨"queue-1"⟩

/-- A world that differs from `World.echo` with a 200 answer in the decoders of the
responses without an error message: the prioritize response decodes to one score
for `node-1` and no error message, the queue-overused and job-ready responses
decode to the boolean `flag`. -/
def World.answering (flag : Bool) : World :=
  { World.echo (.ok ⟨200, ""⟩) with
    DecodePrioritize := fun _ v => ({ v with NodeScore := some [("node-1", ⟨4636737291354636288⟩)] }, none)
    DecodeQueueOverused := fun _ v => ({ v with Overused := flag }, none)
    DecodeJobReady := fun _ v => ({ v with Status := flag }, none) }

/-- A session with two jobs, a node and a queue, and nothing registered yet. -/
def demoSession : Session :=
  { Jobs := [("job-1", ⟨"job-1"⟩), ("job-2", ⟨"job-2"⟩)], Nodes := [("node-1", ⟨"node-1"⟩)],
    Queues := [("queue-1", ⟨"queue-1"⟩)], NamespaceInfo := [("default", ⟨"default"⟩)],
    RevocableNodes := [], registered := [] }

/-- A configuration with only the predicate verb and the allocate verb set, next to
the given session-open verb and failure policy. -/
def sparsePlugin (onSessionOpenVerb : String) (ignorable : Bool) : extenderPlugin :=
  ⟨{ urlPrefix := "http://127.0.0.1", httpTimeout := 1000000000,
     onSessionOpenVerb := onSessionOpenVerb, onSessionCloseVerb := "",
     predicateVerb := "predicate", prioritizeVerb := "",
     preemptableVerb := "", reclaimableVerb := "",
     queueOverusedVerb := "", jobEnqueueableVerb := "",
     jobReadyVerb := "", allocateFuncVerb := "allocate",
     deallocateFuncVerb := "", ignorable := ignorable,
     managedResources := [] }⟩

/-! ## Auxiliary facts -/

/-- Go's `len(s) == 0` on a string holds exactly for the empty string. -/
theorem utf8ByteSize_eq_zero_iff (s : String) : s.utf8ByteSize = 0 ↔ s = "" := by
  rcases s with ⟨cs⟩
  cases cs with
  | nil => simp [String.utf8ByteSize, String.utf8ByteSize.go]
  | cons c cs =>
    have hc := Char.utf8Size_pos c
    constructor
    · intro h
      simp [String.utf8ByteSize, String.utf8ByteSize.go] at h
      omega
    · intro h
      have := congrArg String.data h
      simp at this

/-! ## The predicate handler -/

/-- C1: for an interested task and any node, when the remote call of the predicate
handler succeeds, the handler returns no error if the error message of the response
is empty; if it is non-empty the handler returns a fit error for that task and node
with one status whose reason is the message and whose plugin is "extender", the
code being `api.Error` when the response has the code `api.Success` (the unset
value) and the code of the response otherwise. -/
theorem predicate_success_mapping (k : Constants) (ep : extenderPlugin) (w : World)
    (task : TaskInfo) (node : NodeInfo) (resp : PredicateResponse)
    (hint : ep.IsInterested task = true)
    (hok : (ep.send w ep.config.predicateVerb (.PredicateRequest task node)
      (some w.DecodePredicate) ({} : PredicateResponse)).err = none)
    (hresp : (ep.send w ep.config.predicateVerb (.PredicateRequest task node)
      (some w.DecodePredicate) ({} : PredicateResponse)).resp = resp) :
    (resp.ErrorMessage = "" → (ep.predicateFn k w task node).1 = none) ∧
    (resp.ErrorMessage ≠ "" → resp.Code = Success →
      (ep.predicateFn k w task node).1 =
        some (.NewFitErrWithStatus task node [⟨k.Error, resp.ErrorMessage, "extender"⟩])) ∧
    (resp.ErrorMessage ≠ "" → resp.Code ≠ Success →
      (ep.predicateFn k w task node).1 =
        some (.NewFitErrWithStatus task node [⟨resp.Code, resp.ErrorMessage, "extender"⟩])) := by
  refine ⟨?_, ?_, ?_⟩
  · intro hmsg
    have hlen : resp.ErrorMessage.utf8ByteSize = 0 := by
      rw [utf8ByteSize_eq_zero_iff]; exact hmsg
    simp [extenderPlugin.predicateFn, hint, hok, hresp, hlen]
  · intro hmsg hcode
    have hlen : ¬ resp.ErrorMessage.utf8ByteSize = 0 := by
      rw [utf8ByteSize_eq_zero_iff]; exact hmsg
    simp [extenderPlugin.predicateFn, hint, hok, hresp, hlen, hcode, PluginName]
  · intro hmsg hcode
    have hlen : ¬ resp.ErrorMessage.utf8ByteSize = 0 := by
      rw [utf8ByteSize_eq_zero_iff]; exact hmsg
    simp [extenderPlugin.predicateFn, hint, hok, hresp, hlen, hcode, PluginName]

/-- C1, at a concrete input: the extender answers 200 with the message "no gpu left"
and no code; the handler returns the fit error with the code `api.Error`. -/
theorem predicate_success_mapping_witness :
    (demoPlugin false []).IsInterested cpuTask = true ∧
    ((demoPlugin false []).send (World.echo (.ok ⟨200, "no gpu left"⟩))
      (demoPlugin false []).config.predicateVerb (.PredicateRequest cpuTask demoNode)
      (some (World.echo (.ok ⟨200, "no gpu left"⟩)).DecodePredicate)
      ({} : PredicateResponse)).err = none ∧
    ((demoPlugin false []).predicateFn demoConstants
      (World.echo (.ok ⟨200, "no gpu left"⟩)) cpuTask demoNode).1 =
        some (.NewFitErrWithStatus cpuTask demoNode [⟨1, "no gpu left", "extender"⟩]) :=
  ⟨by decide, by decide,
    (predicate_success_mapping demoConstants (demoPlugin false [])
      (World.echo (.ok ⟨200, "no gpu left"⟩)) cpuTask demoNode ⟨"no gpu left", 0⟩
      (by decide) (by decide) (by decide)).2.1 (by decide) (by decide)⟩

/-- The text of the error `send` makes for an answer other than 200 contains the
word "extender". -/
theorem status_error_text_names_extender (action url : String) (code : Nat) :
    PluginName.data <:+:
      ("failed " ++ action ++ " with extender at URL " ++ url ++ ", code "
        ++ toString code).data := by
  have hlit : (" with extender at URL " : String).data
      = " with ".data ++ PluginName.data ++ " at URL ".data := by decide
  simp only [String.data_append, hlit]
  refine ⟨"failed ".data ++ action.data ++ " with ".data,
    " at URL ".data ++ url.data ++ ", code ".data ++ (toString code).data, ?_⟩
  simp [List.append_assoc, PluginName]

/-- The outcome of `send` when the extender answers with a status other than 200. -/
theorem send_status_not_ok {R : Type} (ep : extenderPlugin) (w : World) (action : String)
    (args : Payload) (result : Option (Decoder R)) (resp : R) (out : String) (r : Response)
    (hm : w.Marshal args = .ok out)
    (hn : w.NewRequest "POST" (TrimRight ep.config.urlPrefix "/" ++ "/" ++ action) = none)
    (hd : w.Do ⟨"POST", TrimRight ep.config.urlPrefix "/" ++ "/" ++ action,
      "application/json", out⟩ = .ok r)
    (hs : r.StatusCode ≠ StatusOK) :
    (ep.send w action args result resp).err =
      some ⟨"failed " ++ action ++ " with extender at URL "
        ++ (TrimRight ep.config.urlPrefix "/" ++ "/" ++ action) ++ ", code "
        ++ toString r.StatusCode⟩ := by
  simp [extenderPlugin.send, hm, hn, hd, hs]

/-- C2, as the code has it: for an interested task and any node, when the remote
call of the predicate handler fails, the handler returns no error if ignorable is
true, and if ignorable is false it returns `api.NewFitError(task, node, text)`, the
fit error for that task and node whose one message is the text of the transport
error; when the failure is an answer with a status other than 200, that text
contains the name of this plugin. -/
theorem predicate_transport_failure (k : Constants) (ep : extenderPlugin) (w : World)
    (task : TaskInfo) (node : NodeInfo) (err : GoError)
    (hint : ep.IsInterested task = true)
    (herr : (ep.send w ep.config.predicateVerb (.PredicateRequest task node)
      (some w.DecodePredicate) ({} : PredicateResponse)).err = some err) :
    (ep.config.ignorable = true → (ep.predicateFn k w task node).1 = none) ∧
    (ep.config.ignorable = false →
      (ep.predicateFn k w task node).1 = some (.NewFitError task node [err.Error])) ∧
    (∀ (out : String) (r : Response),
      w.Marshal (.PredicateRequest task node) = .ok out →
      w.NewRequest "POST"
        (TrimRight ep.config.urlPrefix "/" ++ "/" ++ ep.config.predicateVerb) = none →
      w.Do ⟨"POST", TrimRight ep.config.urlPrefix "/" ++ "/" ++ ep.config.predicateVerb,
        "application/json", out⟩ = .ok r →
      r.StatusCode ≠ StatusOK →
      (FitError.NewFitError task node [err.Error]).names PluginName = true) := by
  refine ⟨?_, ?_, ?_⟩
  · intro hig
    simp [extenderPlugin.predicateFn, hint, herr, hig]
  · intro hig
    simp [extenderPlugin.predicateFn, hint, herr, hig]
  · intro out r hm hn hd hs
    have h := send_status_not_ok ep w ep.config.predicateVerb (.PredicateRequest task node)
      (some w.DecodePredicate) ({} : PredicateResponse) out r hm hn hd hs
    rw [herr] at h
    have he : err = ⟨"failed " ++ ep.config.predicateVerb ++ " with extender at URL "
        ++ (TrimRight ep.config.urlPrefix "/" ++ "/" ++ ep.config.predicateVerb) ++ ", code "
        ++ toString r.StatusCode⟩ := Option.some.inj h
    subst he
    simp only [FitError.names, List.any_cons, List.any_nil, Bool.or_false, decide_eq_true_eq]
    exact status_error_text_names_extender _ _ _

/-- C2, at a concrete input: the extender answers 500 to `/predicate` and ignorable is
false; the handler returns the fit error for the task and node with the text of the
status error, which contains "extender"; with ignorable true it returns no error. -/
theorem predicate_transport_failure_witness :
    (demoPlugin false []).IsInterested cpuTask = true ∧
    ((demoPlugin false []).send (World.echo (.ok ⟨500, ""⟩))
      (demoPlugin false []).config.predicateVerb (.PredicateRequest cpuTask demoNode)
      (some (World.echo (.ok ⟨500, ""⟩)).DecodePredicate) ({} : PredicateResponse)).err =
        some ⟨"failed predicate with extender at URL http://127.0.0.1/predicate, code 500"⟩ ∧
    ((demoPlugin false []).predicateFn demoConstants (World.echo (.ok ⟨500, ""⟩))
      cpuTask demoNode).1 = some (.NewFitError cpuTask demoNode
        ["failed predicate with extender at URL http://127.0.0.1/predicate, code 500"]) ∧
    (FitError.NewFitError cpuTask demoNode
      ["failed predicate with extender at URL http://127.0.0.1/predicate, code 500"]).names
        PluginName = true ∧
    ((demoPlugin true []).predicateFn demoConstants (World.echo (.ok ⟨500, ""⟩))
      cpuTask demoNode).1 = none :=
  ⟨by decide, by decide,
    (predicate_transport_failure demoConstants (demoPlugin false [])
      (World.echo (.ok ⟨500, ""⟩)) cpuTask demoNode
      ⟨"failed predicate with extender at URL http://127.0.0.1/predicate, code 500"⟩
      (by decide) (by decide)).2.1 (by decide),
    (predicate_transport_failure demoConstants (demoPlugin false [])
      (World.echo (.ok ⟨500, ""⟩)) cpuTask demoNode
      ⟨"failed predicate with extender at URL http://127.0.0.1/predicate, code 500"⟩
      (by decide) (by decide)).2.2 "" ⟨500, ""⟩ rfl rfl rfl (by decide),
    (predicate_transport_failure demoConstants (demoPlugin true [])
      (World.echo (.ok ⟨500, ""⟩)) cpuTask demoNode
      ⟨"failed predicate with extender at URL http://127.0.0.1/predicate, code 500"⟩
      (by decide) (by decide)).1 (by decide)⟩

/-- C2 as stated fails: the connection to the extender is refused and ignorable is
false; the remote call fails, and the fit error the handler returns holds the task,
the node and the text of the transport error, none of which names the plugin. -/
theorem predicate_transport_failure_plugin_not_named :
    (demoPlugin false []).IsInterested cpuTask = true ∧
    ((demoPlugin false []).send
      (World.echo (.error "dial tcp 127.0.0.1:80: connect: connection refused"))
      (demoPlugin false []).config.predicateVerb (.PredicateRequest cpuTask demoNode)
      (some (World.echo
        (.error "dial tcp 127.0.0.1:80: connect: connection refused")).DecodePredicate)
      ({} : PredicateResponse)).err =
        some ⟨"dial tcp 127.0.0.1:80: connect: connection refused"⟩ ∧
    ((demoPlugin false []).predicateFn demoConstants
      (World.echo (.error "dial tcp 127.0.0.1:80: connect: connection refused"))
      cpuTask demoNode).1 = some (.NewFitError cpuTask demoNode
        ["dial tcp 127.0.0.1:80: connect: connection refused"]) ∧
    (FitError.NewFitError cpuTask demoNode
      ["dial tcp 127.0.0.1:80: connect: connection refused"]).names PluginName = false := by
  decide

/-! ## The interest filter -/

/-- The loop of `hasResourcesInList` finds a managed name exactly when the resource
list has one. -/
theorem hasResourcesInList_iff (ep : extenderPlugin) (resources : ResourceList) :
    ep.hasResourcesInList resources = true ↔
      ∃ name q, (name, q) ∈ resources ∧ name ∈ ep.config.managedResources := by
  induction resources with
  | nil => simp [extenderPlugin.hasResourcesInList]
  | cons entry rest ih =>
    obtain ⟨n, q⟩ := entry
    have hunf : ep.hasResourcesInList ((n, q) :: rest) =
        if ep.config.managedResources.contains n then true
        else ep.hasResourcesInList rest := rfl
    rw [hunf]
    by_cases hn : n ∈ ep.config.managedResources
    · have hb : ep.config.managedResources.contains n = true := by simpa using hn
      rw [hb, if_pos rfl]
      exact ⟨fun _ => ⟨n, q, List.mem_cons_self _ _, hn⟩, fun _ => rfl⟩
    · have hb : ep.config.managedResources.contains n = false := by simpa using hn
      rw [hb, if_neg (by decide)]
      refine ih.trans ?_
      constructor
      · rintro ⟨name, q', hmem, hman⟩
        exact ⟨name, q', List.mem_cons_of_mem _ hmem, hman⟩
      · rintro ⟨name, q', hmem, hman⟩
        rcases List.mem_cons.mp hmem with heq | hmem
        · cases heq
          exact absurd hman hn
        · exact ⟨name, q', hmem, hman⟩

/-- The loop of `hasManagedResources` finds a container exactly when one of the
containers has a managed name in its requests or in its limits. -/
theorem hasManagedResources_iff (ep : extenderPlugin) (containers : List Container) :
    ep.hasManagedResources containers = true ↔
      ∃ c ∈ containers, ∃ name ∈ ep.config.managedResources,
        (∃ q, (name, q) ∈ c.Resources.Requests) ∨ (∃ q, (name, q) ∈ c.Resources.Limits) := by
  have hone : ∀ c : Container,
      (ep.hasResourcesInList c.Resources.Requests || ep.hasResourcesInList c.Resources.Limits)
        = true ↔ ∃ name ∈ ep.config.managedResources,
          (∃ q, (name, q) ∈ c.Resources.Requests) ∨ (∃ q, (name, q) ∈ c.Resources.Limits) := by
    intro c
    rw [Bool.or_eq_true, hasResourcesInList_iff, hasResourcesInList_iff]
    constructor
    · rintro (⟨name, q, hmem, hman⟩ | ⟨name, q, hmem, hman⟩)
      · exact ⟨name, hman, Or.inl ⟨q, hmem⟩⟩
      · exact ⟨name, hman, Or.inr ⟨q, hmem⟩⟩
    · rintro ⟨name, hman, ⟨q, hmem⟩ | ⟨q, hmem⟩⟩
      · exact Or.inl ⟨name, q, hmem, hman⟩
      · exact Or.inr ⟨name, q, hmem, hman⟩
  induction containers with
  | nil => simp [extenderPlugin.hasManagedResources]
  | cons c rest ih =>
    have hunf : ep.hasManagedResources (c :: rest) =
        if ep.hasResourcesInList c.Resources.Requests ||
            ep.hasResourcesInList c.Resources.Limits then true
        else ep.hasManagedResources rest := rfl
    rw [hunf]
    by_cases hc : (ep.hasResourcesInList c.Resources.Requests ||
        ep.hasResourcesInList c.Resources.Limits) = true
    · rw [if_pos hc]
      exact ⟨fun _ => ⟨c, List.mem_cons_self _ _, (hone c).mp hc⟩, fun _ => rfl⟩
    · rw [if_neg hc]
      refine ih.trans ?_
      constructor
      · rintro ⟨c', hmem, h⟩
        exact ⟨c', List.mem_cons_of_mem _ hmem, h⟩
      · rintro ⟨c', hmem, h⟩
        rcases List.mem_cons.mp hmem with heq | hmem
        · subst heq
          exact absurd ((hone c').mpr h) hc
        · exact ⟨c', hmem, h⟩

/-- C3: `IsInterested` returns true when the managed-resource set is empty; when the
set is non-empty it returns true if and only if some regular or init container of
the pod of the task has, in its requests or in its limits, a resource name that is a
member of the set. -/
theorem IsInterested_iff (ep : extenderPlugin) (task : TaskInfo) :
    (ep.config.managedResources = [] → ep.IsInterested task = true) ∧
    (ep.config.managedResources ≠ [] →
      (ep.IsInterested task = true ↔
        ∃ c, (c ∈ task.Pod.Spec.Containers ∨ c ∈ task.Pod.Spec.InitContainers) ∧
          ∃ name ∈ ep.config.managedResources,
            (∃ q, (name, q) ∈ c.Resources.Requests) ∨
            (∃ q, (name, q) ∈ c.Resources.Limits))) := by
  constructor
  · intro hempty
    simp [extenderPlugin.IsInterested, hempty]
  · intro hne
    have hlen : ¬ ep.config.managedResources.length = 0 := by
      intro h
      exact hne (List.length_eq_zero.mp h)
    have hstep : ep.IsInterested task = true ↔
        (ep.hasManagedResources task.Pod.Spec.Containers = true ∨
          ep.hasManagedResources task.Pod.Spec.InitContainers = true) := by
      unfold extenderPlugin.IsInterested
      simp only [beq_iff_eq, hlen, if_false]
      cases ep.hasManagedResources task.Pod.Spec.Containers <;>
        cases ep.hasManagedResources task.Pod.Spec.InitContainers <;> simp
    rw [hstep, hasManagedResources_iff, hasManagedResources_iff]
    constructor
    · rintro (⟨c, hmem, h⟩ | ⟨c, hmem, h⟩)
      · exact ⟨c, Or.inl hmem, h⟩
      · exact ⟨c, Or.inr hmem, h⟩
    · rintro ⟨c, hmem | hmem, h⟩
      · exact Or.inl ⟨c, hmem, h⟩
      · exact Or.inr ⟨c, hmem, h⟩

/-- C3, at concrete inputs: with the managed set `["nvidia.com/gpu"]` the task whose
container asks for cpu and memory is not of interest, since no container of it has
a managed name; with the empty set it is. -/
theorem IsInterested_iff_witness :
    (demoPlugin false ["nvidia.com/gpu"]).config.managedResources ≠ [] ∧
    (demoPlugin false ["nvidia.com/gpu"]).IsInterested cpuTask = false ∧
    (¬ ∃ c, (c ∈ cpuTask.Pod.Spec.Containers ∨ c ∈ cpuTask.Pod.Spec.InitContainers) ∧
      ∃ name ∈ (demoPlugin false ["nvidia.com/gpu"]).config.managedResources,
        (∃ q, (name, q) ∈ c.Resources.Requests) ∨ (∃ q, (name, q) ∈ c.Resources.Limits)) ∧
    (demoPlugin false []).config.managedResources = [] ∧
    (demoPlugin false []).IsInterested cpuTask = true :=
  ⟨by decide, by decide,
    fun h => absurd (((IsInterested_iff (demoPlugin false ["nvidia.com/gpu"]) cpuTask).2
      (by decide)).mpr h) (by decide),
    by decide, (IsInterested_iff (demoPlugin false []) cpuTask).1 (by decide)⟩

/-! ## Tasks that are not of interest -/

/-- C4: for a task for which `IsInterested` is false, every task-keyed handler issues
no request and returns its neutral result: the predicate handler no error, the
prioritize handler the empty non-nil score map and no error, the preemptable and
reclaimable handlers the empty non-nil victim list with `util.Abstain`, and the
allocate and deallocate event handlers the event as it was, its failure slot
untouched. -/
theorem uninterested_handlers_neutral (k : Constants) (ep : extenderPlugin) (w : World)
    (task : TaskInfo) (hno : ep.IsInterested task = false) :
    (∀ node, ep.predicateFn k w task node = (none, [])) ∧
    (∀ nodes, ep.batchNodeOrderFn w task nodes = ((some [], none), [])) ∧
    (∀ evictees, ep.preemptableFn k w task evictees = ((some [], k.Abstain), [])) ∧
    (∀ evictees, ep.reclaimableFn k w task evictees = ((some [], k.Abstain), [])) ∧
    (∀ slot, eventHandlerFunc ep "AllocateFunc" w (some ⟨task, slot⟩)
      = (some ⟨task, slot⟩, [])) ∧
    (∀ slot, eventHandlerFunc ep "DeallocateFunc" w (some ⟨task, slot⟩)
      = (some ⟨task, slot⟩, [])) := by
  refine ⟨?_, ?_, ?_, ?_, ?_, ?_⟩
  · intro node
    simp [extenderPlugin.predicateFn, hno]
  · intro nodes
    simp [extenderPlugin.batchNodeOrderFn, hno]
  · intro evictees
    simp [extenderPlugin.preemptableFn, hno]
  · intro evictees
    simp [extenderPlugin.reclaimableFn, hno]
  · intro slot
    simp [eventHandlerFunc, hno]
  · intro slot
    simp [eventHandlerFunc, hno]

/-- C4, at a concrete input: the managed set is `["nvidia.com/gpu"]` and the task asks
for cpu and memory only; against an extender that would answer 500, the predicate
handler returns no error and no request is issued, and so for the other handlers. -/
theorem uninterested_handlers_neutral_witness :
    (demoPlugin false ["nvidia.com/gpu"]).IsInterested cpuTask = false ∧
    (demoPlugin false ["nvidia.com/gpu"]).predicateFn demoConstants
      (World.echo (.ok ⟨500, ""⟩)) cpuTask demoNode = (none, []) ∧
    (demoPlugin false ["nvidia.com/gpu"]).batchNodeOrderFn
      (World.echo (.ok ⟨500, ""⟩)) cpuTask [demoNode] = ((some [], none), []) ∧
    (demoPlugin false ["nvidia.com/gpu"]).preemptableFn demoConstants
      (World.echo (.ok ⟨500, ""⟩)) cpuTask [gpuTask] = ((some [], 0), []) ∧
    eventHandlerFunc (demoPlugin false ["nvidia.com/gpu"]) "AllocateFunc"
      (World.echo (.ok ⟨500, ""⟩)) (some ⟨cpuTask, none⟩) = (some ⟨cpuTask, none⟩, []) :=
  have h := uninterested_handlers_neutral demoConstants (demoPlugin false ["nvidia.com/gpu"])
    (World.echo (.ok ⟨500, ""⟩)) cpuTask (by decide)
  ⟨by decide, h.1 demoNode, h.2.1 [demoNode], h.2.2.1 [gpuTask], h.2.2.2.2.1 none⟩

/-! ## Victim selection and job admission on a failed call -/

/-- C5: when the remote call fails, the preemptable and the reclaimable handler, for
an interested evictor and any evictees, return nil victims with `util.Permit` if
ignorable is true and nil victims with `util.Reject` if it is false; the
job-enqueueable handler returns `util.Permit` if ignorable is true and `util.Reject`
if it is false. -/
theorem failed_call_permit_or_reject (k : Constants) (ep : extenderPlugin) (w : World)
    (evictor : TaskInfo) (evictees : List TaskInfo) (job : JobInfo) :
    (ep.IsInterested evictor = true →
      (ep.send w ep.config.preemptableVerb (.PreemptableRequest evictor evictees)
        (some w.DecodePreemptable) ({} : PreemptableResponse)).err ≠ none →
      (ep.config.ignorable = true →
        (ep.preemptableFn k w evictor evictees).1 = (none, k.Permit)) ∧
      (ep.config.ignorable = false →
        (ep.preemptableFn k w evictor evictees).1 = (none, k.Reject))) ∧
    (ep.IsInterested evictor = true →
      (ep.send w ep.config.reclaimableVerb (.ReclaimableRequest evictor evictees)
        (some w.DecodeReclaimable) ({} : ReclaimableResponse)).err ≠ none →
      (ep.config.ignorable = true →
        (ep.reclaimableFn k w evictor evictees).1 = (none, k.Permit)) ∧
      (ep.config.ignorable = false →
        (ep.reclaimableFn k w evictor evictees).1 = (none, k.Reject))) ∧
    ((ep.send w ep.config.jobEnqueueableVerb (.JobEnqueueableRequest job)
        (some w.DecodeJobEnqueueable) ({} : JobEnqueueableResponse)).err ≠ none →
      (ep.config.ignorable = true → (ep.jobEnqueueableFn k w job).1 = k.Permit) ∧
      (ep.config.ignorable = false → (ep.jobEnqueueableFn k w job).1 = k.Reject)) := by
  refine ⟨?_, ?_, ?_⟩
  · intro hint herr
    obtain ⟨err, he⟩ := Option.ne_none_iff_exists'.mp herr
    constructor <;> intro hig <;> simp [extenderPlugin.preemptableFn, hint, he, hig]
  · intro hint herr
    obtain ⟨err, he⟩ := Option.ne_none_iff_exists'.mp herr
    constructor <;> intro hig <;> simp [extenderPlugin.reclaimableFn, hint, he, hig]
  · intro herr
    obtain ⟨err, he⟩ := Option.ne_none_iff_exists'.mp herr
    constructor <;> intro hig <;> simp [extenderPlugin.jobEnqueueableFn, he, hig]

/-- C5, at concrete inputs: the extender answers 500; with ignorable false the
preemptable and reclaimable handlers return nil victims with `util.Reject` and the
job-enqueueable handler `util.Reject`; with ignorable true the preemptable handler
returns nil victims with `util.Permit`. -/
theorem failed_call_permit_or_reject_witness :
    (demoPlugin false []).IsInterested gpuTask = true ∧
    ((demoPlugin false []).send (World.echo (.ok ⟨500, ""⟩))
      (demoPlugin false []).config.preemptableVerb (.PreemptableRequest gpuTask [cpuTask])
      (some (World.echo (.ok ⟨500, ""⟩)).DecodePreemptable)
      ({} : PreemptableResponse)).err ≠ none ∧
    ((demoPlugin false []).preemptableFn demoConstants (World.echo (.ok ⟨500, ""⟩))
      gpuTask [cpuTask]).1 = (none, -1) ∧
    ((demoPlugin false []).reclaimableFn demoConstants (World.echo (.ok ⟨500, ""⟩))
      gpuTask [cpuTask]).1 = (none, -1) ∧
    ((demoPlugin false []).jobEnqueueableFn demoConstants (World.echo (.ok ⟨500, ""⟩))
      ⟨"job-1"⟩).1 = -1 ∧
    ((demoPlugin true []).preemptableFn demoConstants (World.echo (.ok ⟨500, ""⟩))
      gpuTask [cpuTask]).1 = (none, 1) :=
  have h := failed_call_permit_or_reject demoConstants (demoPlugin false [])
    (World.echo (.ok ⟨500, ""⟩)) gpuTask [cpuTask] ⟨"job-1"⟩
  have h' := failed_call_permit_or_reject demoConstants (demoPlugin true [])
    (World.echo (.ok ⟨500, ""⟩)) gpuTask [cpuTask] ⟨"job-1"⟩
  ⟨by decide, by decide, (h.1 (by decide) (by decide)).2 (by decide),
    (h.2.1 (by decide) (by decide)).2 (by decide), (h.2.2 (by decide)).2 (by decide),
    (h'.1 (by decide) (by decide)).1 (by decide)⟩

/-! ## The boolean hooks -/

/-- C6, the code at the failing inputs: the extender answers 500 to `/jobReady`, so
the remote call fails.  With ignorable true the job-ready handler returns false,
with ignorable false it returns true: the negation of the flag, the reverse of what
the claim states. -/
theorem jobReady_failed_call_returns_not_ignorable :
    ((demoPlugin true []).send (World.echo (.ok ⟨500, ""⟩))
      (demoPlugin true []).config.jobReadyVerb (.JobReadyRequest demoJob)
      (some (World.echo (.ok ⟨500, ""⟩)).DecodeJobReady) ({} : JobReadyResponse)).err =
        some ⟨"failed jobReady with extender at URL http://127.0.0.1/jobReady, code 500"⟩ ∧
    ((demoPlugin true []).jobReadyFn (World.echo (.ok ⟨500, ""⟩)) demoJob).1 = false ∧
    ((demoPlugin false []).send (World.echo (.ok ⟨500, ""⟩))
      (demoPlugin false []).config.jobReadyVerb (.JobReadyRequest demoJob)
      (some (World.echo (.ok ⟨500, ""⟩)).DecodeJobReady) ({} : JobReadyResponse)).err =
        some ⟨"failed jobReady with extender at URL http://127.0.0.1/jobReady, code 500"⟩ ∧
    ((demoPlugin false []).jobReadyFn (World.echo (.ok ⟨500, ""⟩)) demoJob).1 = true := by
  decide

/-- C7: for every queue, when the remote call of the queue-overused handler fails the
handler returns the negation of the ignorable flag, false if ignorable is true and
true if it is false; when the call succeeds it returns the boolean of the
response. -/
theorem queueOverused_mapping (ep : extenderPlugin) (w : World) (queue : QueueInfo) :
    ((ep.send w ep.config.queueOverusedVerb (.QueueOverusedRequest queue)
        (some w.DecodeQueueOverused) ({} : QueueOverusedResponse)).err ≠ none →
      (ep.overusedFn w queue).1 = !ep.config.ignorable ∧
      (ep.config.ignorable = true → (ep.overusedFn w queue).1 = false) ∧
      (ep.config.ignorable = false → (ep.overusedFn w queue).1 = true)) ∧
    ((ep.send w ep.config.queueOverusedVerb (.QueueOverusedRequest queue)
        (some w.DecodeQueueOverused) ({} : QueueOverusedResponse)).err = none →
      (ep.overusedFn w queue).1 =
        (ep.send w ep.config.queueOverusedVerb (.QueueOverusedRequest queue)
          (some w.DecodeQueueOverused) ({} : QueueOverusedResponse)).resp.Overused) := by
  constructor
  · intro herr
    obtain ⟨err, he⟩ := Option.ne_none_iff_exists'.mp herr
    refine ⟨?_, ?_, ?_⟩
    · simp [extenderPlugin.overusedFn, he]
    · intro hig
      simp [extenderPlugin.overusedFn, he, hig]
    · intro hig
      simp [extenderPlugin.overusedFn, he, hig]
  · intro hok
    simp [extenderPlugin.overusedFn, hok]

/-- C7, at concrete inputs: the extender answers 500 and ignorable is true, the
handler returns false; ignorable is false, it returns true; the extender answers
200 with overused true, the handler returns true. -/
theorem queueOverused_mapping_witness :
    ((demoPlugin true []).send (World.echo (.ok ⟨500, ""⟩))
      (demoPlugin true []).config.queueOverusedVerb (.QueueOverusedRequest demoQueue)
      (some (World.echo (.ok ⟨500, ""⟩)).DecodeQueueOverused)
      ({} : QueueOverusedResponse)).err ≠ none ∧
    ((demoPlugin true []).overusedFn (World.echo (.ok ⟨500, ""⟩)) demoQueue).1 = false ∧
    ((demoPlugin false []).overusedFn (World.echo (.ok ⟨500, ""⟩)) demoQueue).1 = true ∧
    ((demoPlugin false []).send (World.answering true)
      (demoPlugin false []).config.queueOverusedVerb (.QueueOverusedRequest demoQueue)
      (some (World.answering true).DecodeQueueOverused)
      ({} : QueueOverusedResponse)).err = none ∧
    ((demoPlugin false []).overusedFn (World.answering true) demoQueue).1 = true :=
  ⟨by decide,
    ((queueOverused_mapping (demoPlugin true []) (World.echo (.ok ⟨500, ""⟩)) demoQueue).1
      (by decide)).2.1 (by decide),
    ((queueOverused_mapping (demoPlugin false []) (World.echo (.ok ⟨500, ""⟩)) demoQueue).1
      (by decide)).2.2 (by decide),
    by decide,
    ((queueOverused_mapping (demoPlugin false []) (World.answering true) demoQueue).2
      (by decide)).trans (by decide)⟩

/-! ## The prioritize handler -/

/-- C8: for an interested task and any candidate nodes, the prioritize handler
returns the nil map and the nil error when the remote call fails and ignorable is
true; the nil map and the transport error when the call fails and ignorable is
false; the score map of the response and the nil error when the call succeeds with
an empty error message and a non-empty score map; the nil map and an error whose
text is the error message of the response when the call succeeds with a non-empty
error message. -/
theorem prioritize_mapping (ep : extenderPlugin) (w : World) (task : TaskInfo)
    (nodes : List NodeInfo) (hint : ep.IsInterested task = true) :
    (∀ err, (ep.send w ep.config.prioritizeVerb (.PrioritizeRequest task nodes)
        (some w.DecodePrioritize) ({} : PrioritizeResponse)).err = some err →
      (ep.config.ignorable = true → (ep.batchNodeOrderFn w task nodes).1 = (none, none)) ∧
      (ep.config.ignorable = false →
        (ep.batchNodeOrderFn w task nodes).1 = (none, some err))) ∧
    (∀ resp, (ep.send w ep.config.prioritizeVerb (.PrioritizeRequest task nodes)
        (some w.DecodePrioritize) ({} : PrioritizeResponse)).err = none →
      (ep.send w ep.config.prioritizeVerb (.PrioritizeRequest task nodes)
        (some w.DecodePrioritize) ({} : PrioritizeResponse)).resp = resp →
      (∀ scores, resp.ErrorMessage = "" → resp.NodeScore = some scores → scores ≠ [] →
        (ep.batchNodeOrderFn w task nodes).1 = (some scores, none)) ∧
      (resp.ErrorMessage ≠ "" →
        (ep.batchNodeOrderFn w task nodes).1 = (none, some ⟨resp.ErrorMessage⟩))) := by
  constructor
  · intro err he
    constructor <;> intro hig <;> simp [extenderPlugin.batchNodeOrderFn, hint, he, hig]
  · intro resp hok hresp
    constructor
    · intro scores hmsg hmap _
      simp [extenderPlugin.batchNodeOrderFn, hint, hok, hresp, hmsg, hmap]
    · intro hmsg
      simp [extenderPlugin.batchNodeOrderFn, hint, hok, hresp, hmsg, errors.New]

/-- C8, at concrete inputs: the extender answers 500, and the handler returns the nil
map with the transport error when ignorable is false and with no error when it is
true; the extender answers 200 with one score, and the handler returns that map;
the extender answers 200 with the message "no gpu left", and the handler returns
the nil map and that message as the error. -/
theorem prioritize_mapping_witness :
    (demoPlugin false []).IsInterested gpuTask = true ∧
    ((demoPlugin false []).batchNodeOrderFn (World.echo (.ok ⟨500, ""⟩)) gpuTask
      [demoNode]).1 = (none, some
        ⟨"failed prioritize with extender at URL http://127.0.0.1/prioritize, code 500"⟩) ∧
    ((demoPlugin true []).batchNodeOrderFn (World.echo (.ok ⟨500, ""⟩)) gpuTask
      [demoNode]).1 = (none, none) ∧
    ((demoPlugin false []).batchNodeOrderFn (World.answering true) gpuTask [demoNode]).1
      = (some [("node-1", ⟨4636737291354636288⟩)], none) ∧
    ((demoPlugin false []).batchNodeOrderFn (World.echo (.ok ⟨200, "no gpu left"⟩)) gpuTask
      [demoNode]).1 = (none, some ⟨"no gpu left"⟩) :=
  ⟨by decide,
    ((prioritize_mapping (demoPlugin false []) (World.echo (.ok ⟨500, ""⟩)) gpuTask
      [demoNode] (by decide)).1 _ (by decide)).2 (by decide),
    ((prioritize_mapping (demoPlugin true []) (World.echo (.ok ⟨500, ""⟩)) gpuTask
      [demoNode] (by decide)).1
      ⟨"failed prioritize with extender at URL http://127.0.0.1/prioritize, code 500"⟩
      (by decide)).1 (by decide),
    ((prioritize_mapping (demoPlugin false []) (World.answering true) gpuTask
      [demoNode] (by decide)).2 ⟨some [("node-1", ⟨4636737291354636288⟩)], ""⟩
      (by decide) (by decide)).1 _ (by decide) (by decide) (by decide),
    ((prioritize_mapping (demoPlugin false []) (World.echo (.ok ⟨200, "no gpu left"⟩)) gpuTask
      [demoNode] (by decide)).2 ⟨none, "no gpu left"⟩ (by decide) (by decide)).2 (by decide)⟩

/-! ## Lifecycle events -/

/-- C9: an allocate or deallocate event handler, invoked on a non-nil event whose task
is of interest, sends the request with the verb of its kind and then: if the response
carries a non-empty error message, the failure slot of the event is an error with
that message, whatever the ignorable flag; otherwise, if the call failed, the slot
is the transport error when ignorable is false and is left as it was when ignorable
is true; otherwise the slot is left as it was.  Invoked on a nil event the handler
issues no request and returns. -/
theorem eventHandler_failure_slot (ep : extenderPlugin) (w : World) (funcName verb : String)
    (event : Event) (r : SendResult EventHandlerResponse) :
    ((funcName = "AllocateFunc" ∧ verb = ep.config.allocateFuncVerb ∨
        funcName = "DeallocateFunc" ∧ verb = ep.config.deallocateFuncVerb) →
      ep.IsInterested event.Task = true →
      ep.send w verb (.EventHandlerRequest event.Task) (some w.DecodeEventHandler)
        ({} : EventHandlerResponse) = r →
      (eventHandlerFunc ep funcName w (some event)).2 = r.sent ∧
      (r.resp.ErrorMessage ≠ "" →
        (eventHandlerFunc ep funcName w (some event)).1 =
          some ⟨event.Task, some ⟨r.resp.ErrorMessage⟩⟩) ∧
      (r.resp.ErrorMessage = "" → ∀ err, r.err = some err → ep.config.ignorable = false →
        (eventHandlerFunc ep funcName w (some event)).1 = some ⟨event.Task, some err⟩) ∧
      (r.resp.ErrorMessage = "" → r.err ≠ none → ep.config.ignorable = true →
        (eventHandlerFunc ep funcName w (some event)).1 = some event) ∧
      (r.resp.ErrorMessage = "" → r.err = none →
        (eventHandlerFunc ep funcName w (some event)).1 = some event)) ∧
    eventHandlerFunc ep funcName w none = (none, []) := by
  refine ⟨?_, by simp [eventHandlerFunc]⟩
  intro hfn hint hr
  have hverb : (if funcName = "AllocateFunc" then ep.config.allocateFuncVerb
      else if funcName = "DeallocateFunc" then ep.config.deallocateFuncVerb else "") = verb := by
    rcases hfn with ⟨hf, hv⟩ | ⟨hf, hv⟩
    · simp [hf, hv]
    · subst hf
      rw [if_neg (by decide), if_pos rfl, hv]
  refine ⟨?_, ?_, ?_, ?_, ?_⟩
  · simp [eventHandlerFunc, hint, hverb, hr]
  · intro hmsg
    cases he : r.err with
    | none => simp [eventHandlerFunc, hint, hverb, hr, hmsg, he, errors.New]
    | some err =>
      cases hig : ep.config.ignorable <;>
        simp [eventHandlerFunc, hint, hverb, hr, hmsg, he, hig, errors.New]
  · intro hmsg err he hig
    simp [eventHandlerFunc, hint, hverb, hr, hmsg, he, hig]
  · intro hmsg herr hig
    obtain ⟨err, he⟩ := Option.ne_none_iff_exists'.mp herr
    simp [eventHandlerFunc, hint, hverb, hr, hmsg, he, hig]
  · intro hmsg he
    simp [eventHandlerFunc, hint, hverb, hr, hmsg, he]

/-- C9, at concrete inputs: the extender answers 200 with the message "denied" and
ignorable is true: the slot of the allocate event becomes that message; the extender
answers 500 to `/deallocate` and ignorable is false: the slot becomes the transport
error; with ignorable true the event is left as it was. -/
theorem eventHandler_failure_slot_witness :
    (demoPlugin true []).IsInterested gpuTask = true ∧
    (eventHandlerFunc (demoPlugin true []) "AllocateFunc" (World.echo (.ok ⟨200, "denied"⟩))
      (some ⟨gpuTask, none⟩)).1 = some ⟨gpuTask, some ⟨"denied"⟩⟩ ∧
    (eventHandlerFunc (demoPlugin false []) "DeallocateFunc" (World.echo (.ok ⟨500, ""⟩))
      (some ⟨gpuTask, none⟩)).1 = some ⟨gpuTask, some
        ⟨"failed deallocate with extender at URL http://127.0.0.1/deallocate, code 500"⟩⟩ ∧
    (eventHandlerFunc (demoPlugin true []) "DeallocateFunc" (World.echo (.ok ⟨500, ""⟩))
      (some ⟨gpuTask, none⟩)).1 = some ⟨gpuTask, none⟩ :=
  ⟨by decide,
    ((eventHandler_failure_slot (demoPlugin true []) (World.echo (.ok ⟨200, "denied"⟩))
      "AllocateFunc" "allocate" ⟨gpuTask, none⟩ _).1 (by decide) (by decide) rfl).2.1
      (by decide),
    ((eventHandler_failure_slot (demoPlugin false []) (World.echo (.ok ⟨500, ""⟩))
      "DeallocateFunc" "deallocate" ⟨gpuTask, none⟩ _).1 (by decide) (by decide) rfl).2.2.1
      (by decide) _ (by decide) (by decide),
    ((eventHandler_failure_slot (demoPlugin true []) (World.echo (.ok ⟨500, ""⟩))
      "DeallocateFunc" "deallocate" ⟨gpuTask, none⟩ _).1 (by decide) (by decide) rfl).2.2.2.1
      (by decide) (by decide) (by decide)⟩

/-! ## Opening a session -/

/-- The function `addEventHandler` registers one event handler, whose allocate and
deallocate callbacks are set for the non-empty verbs. -/
theorem addEventHandler_registered (ssn : Session) (ep : extenderPlugin) :
    (addEventHandler ssn ep).registered = ssn.registered ++
      [Registration.AddEventHandler
        { AllocateFunc :=
            if ep.config.allocateFuncVerb ≠ "" then
              some (eventHandlerFunc ep "AllocateFunc") else none
          DeallocateFunc :=
            if ep.config.deallocateFuncVerb ≠ "" then
              some (eventHandlerFunc ep "DeallocateFunc") else none }] := by
  by_cases h8 : ep.config.allocateFuncVerb = "" <;>
  by_cases h9 : ep.config.deallocateFuncVerb = "" <;>
  simp [addEventHandler, Session.AddEventHandler, h8, h9]

/-- What `OnSessionOpen` adds to the registrations of the session, spelled out: nothing
if the session-open call is made, fails and ignorable is false; otherwise one call per
hook with a non-empty verb, in the order of the source, and then the event handler. -/
theorem OnSessionOpen_registered (k : Constants) (ep : extenderPlugin) (w : World)
    (ssn : Session) :
    (ep.OnSessionOpen k w ssn).1.registered =
      if ep.config.onSessionOpenVerb ≠ "" ∧
          (ep.send w ep.config.onSessionOpenVerb
            (.OnSessionOpenRequest ssn.Jobs ssn.Nodes ssn.Queues ssn.NamespaceInfo
              ssn.RevocableNodes) (none : Option (Decoder Unit)) ()).err ≠ none ∧
          ep.config.ignorable = false then ssn.registered
      else ssn.registered ++
        ((if ep.config.predicateVerb ≠ "" then
            [Registration.AddPredicateFn PluginName (ep.predicateFn k)] else []) ++
         (if ep.config.prioritizeVerb ≠ "" then
            [Registration.AddBatchNodeOrderFn PluginName ep.batchNodeOrderFn] else []) ++
         (if ep.config.preemptableVerb ≠ "" then
            [Registration.AddPreemptableFn PluginName (ep.preemptableFn k)] else []) ++
         (if ep.config.reclaimableVerb ≠ "" then
            [Registration.AddReclaimableFn PluginName (ep.reclaimableFn k)] else []) ++
         (if ep.config.jobEnqueueableVerb ≠ "" then
            [Registration.AddJobEnqueueableFn PluginName (ep.jobEnqueueableFn k)] else []) ++
         (if ep.config.queueOverusedVerb ≠ "" then
            [Registration.AddOverusedFn PluginName ep.overusedFn] else []) ++
         (if ep.config.jobReadyVerb ≠ "" then
            [Registration.AddJobReadyFn PluginName ep.jobReadyFn] else []) ++
         [Registration.AddEventHandler
            { AllocateFunc :=
                if ep.config.allocateFuncVerb ≠ "" then
                  some (eventHandlerFunc ep "AllocateFunc") else none
              DeallocateFunc :=
                if ep.config.deallocateFuncVerb ≠ "" then
                  some (eventHandlerFunc ep "DeallocateFunc") else none }]) := by
  by_cases habort : ep.config.onSessionOpenVerb ≠ "" ∧
      (ep.send w ep.config.onSessionOpenVerb
        (.OnSessionOpenRequest ssn.Jobs ssn.Nodes ssn.Queues ssn.NamespaceInfo
          ssn.RevocableNodes) (none : Option (Decoder Unit)) ()).err ≠ none ∧
      ep.config.ignorable = false
  · rw [if_pos habort]
    obtain ⟨hv, he, hig⟩ := habort
    obtain ⟨err, he⟩ := Option.ne_none_iff_exists'.mp he
    simp [extenderPlugin.OnSessionOpen, hv, he, hig]
  · rw [if_neg habort]
    have hopen : (if ep.config.onSessionOpenVerb ≠ "" then
        (((ep.send w ep.config.onSessionOpenVerb
          (.OnSessionOpenRequest ssn.Jobs ssn.Nodes ssn.Queues ssn.NamespaceInfo
            ssn.RevocableNodes) (none : Option (Decoder Unit)) ()).err.isSome &&
          !ep.config.ignorable),
         (ep.send w ep.config.onSessionOpenVerb
          (.OnSessionOpenRequest ssn.Jobs ssn.Nodes ssn.Queues ssn.NamespaceInfo
            ssn.RevocableNodes) (none : Option (Decoder Unit)) ()).sent)
        else ((false, []) : Bool × List Request)).1 = false := by
      by_cases hv : ep.config.onSessionOpenVerb = ""
      · simp [hv]
      · rw [if_pos hv]
        cases he : (ep.send w ep.config.onSessionOpenVerb
          (.OnSessionOpenRequest ssn.Jobs ssn.Nodes ssn.Queues ssn.NamespaceInfo
            ssn.RevocableNodes) (none : Option (Decoder Unit)) ()).err with
        | none => simp
        | some err =>
          cases hig : ep.config.ignorable with
          | true => simp
          | false => exact absurd ⟨hv, by simp [he], hig⟩ habort
    unfold extenderPlugin.OnSessionOpen
    lift_lets
    intro r opened s1 s2 s3 s4 s5 s6 s7
    have hopen1 : opened.1 = false := hopen
    have e1 : s1.registered = ssn.registered ++
        (if ep.config.predicateVerb ≠ "" then
          [Registration.AddPredicateFn PluginName (ep.predicateFn k)] else []) := by
      simp only [s1]
      split <;> simp [Session.AddPredicateFn, extenderPlugin.Name]
    have e2 : s2.registered = s1.registered ++
        (if ep.config.prioritizeVerb ≠ "" then
          [Registration.AddBatchNodeOrderFn PluginName ep.batchNodeOrderFn] else []) := by
      simp only [s2]
      split <;> simp [Session.AddBatchNodeOrderFn, extenderPlugin.Name]
    have e3 : s3.registered = s2.registered ++
        (if ep.config.preemptableVerb ≠ "" then
          [Registration.AddPreemptableFn PluginName (ep.preemptableFn k)] else []) := by
      simp only [s3]
      split <;> simp [Session.AddPreemptableFn, extenderPlugin.Name]
    have e4 : s4.registered = s3.registered ++
        (if ep.config.reclaimableVerb ≠ "" then
          [Registration.AddReclaimableFn PluginName (ep.reclaimableFn k)] else []) := by
      simp only [s4]
      split <;> simp [Session.AddReclaimableFn, extenderPlugin.Name]
    have e5 : s5.registered = s4.registered ++
        (if ep.config.jobEnqueueableVerb ≠ "" then
          [Registration.AddJobEnqueueableFn PluginName (ep.jobEnqueueableFn k)] else []) := by
      simp only [s5]
      split <;> simp [Session.AddJobEnqueueableFn, extenderPlugin.Name]
    have e6 : s6.registered = s5.registered ++
        (if ep.config.queueOverusedVerb ≠ "" then
          [Registration.AddOverusedFn PluginName ep.overusedFn] else []) := by
      simp only [s6]
      split <;> simp [Session.AddOverusedFn, extenderPlugin.Name]
    have e7 : s7.registered = s6.registered ++
        (if ep.config.jobReadyVerb ≠ "" then
          [Registration.AddJobReadyFn PluginName ep.jobReadyFn] else []) := by
      simp only [s7]
      split <;> simp [Session.AddJobReadyFn, extenderPlugin.Name]
    rw [hopen1]
    simp only [Bool.false_eq_true, if_false]
    rw [addEventHandler_registered, e7, e6, e5, e4, e3, e2, e1]
    simp only [List.append_assoc]

/-- The function `send` hands at most one request to the HTTP client, a POST to the URL
made of the prefix without its trailing slashes, a slash and the verb. -/
theorem send_sent {R : Type} (ep : extenderPlugin) (w : World) (action : String)
    (args : Payload) (result : Option (Decoder R)) (resp : R) :
    (ep.send w action args result resp).sent.length ≤ 1 ∧
    ∀ req ∈ (ep.send w action args result resp).sent,
      req.Method = "POST" ∧ req.URL = TrimRight ep.config.urlPrefix "/" ++ "/" ++ action := by
  unfold extenderPlugin.send
  cases hm : w.Marshal args with
  | error e => simp
  | ok out =>
    cases hn : w.NewRequest "POST" (TrimRight ep.config.urlPrefix "/" ++ "/" ++ action) with
    | some e => simp [hn]
    | none =>
      cases hd : w.Do ⟨"POST", TrimRight ep.config.urlPrefix "/" ++ "/" ++ action,
        "application/json", out⟩ with
      | error e => simp [hn, hd]
      | ok r =>
        by_cases hs : r.StatusCode = StatusOK
        · cases result <;> simp [hn, hd, hs]
        · simp [hn, hd, hs]

/-- The requests `OnSessionOpen` issues are those of the session-open call, made only
for a non-empty session-open verb. -/
theorem OnSessionOpen_sent (k : Constants) (ep : extenderPlugin) (w : World) (ssn : Session) :
    (ep.OnSessionOpen k w ssn).2 =
      if ep.config.onSessionOpenVerb ≠ "" then
        (ep.send w ep.config.onSessionOpenVerb
          (.OnSessionOpenRequest ssn.Jobs ssn.Nodes ssn.Queues ssn.NamespaceInfo
            ssn.RevocableNodes) (none : Option (Decoder Unit)) ()).sent
      else [] := by
  unfold extenderPlugin.OnSessionOpen
  lift_lets
  intro r opened s1 s2 s3 s4 s5 s6 s7
  have hsent : opened.2 = if ep.config.onSessionOpenVerb ≠ "" then r.sent else [] := by
    simp only [opened]
    split <;> rfl
  rw [← hsent]
  split <;> rfl

/-- C10: after `OnSessionOpen` the registrations of the session are those it had
followed by the added ones.  If the session-open verb is non-empty, its remote call
fails and ignorable is false, nothing is added: no hook and no event handler.
Otherwise each of the seven hooks is among the added registrations if and only if its
verb is non-empty, every added hook is registered under the name "extender", exactly
one event handler is added, and its allocate and deallocate callbacks are set if and
only if their verbs are non-empty.  The requests issued while opening are at most
one, made only for a non-empty session-open verb and addressed to that verb: no
request is made for any hook, so none for a hook whose verb is empty. -/
theorem OnSessionOpen_registers_configured_hooks (k : Constants) (ep : extenderPlugin)
    (w : World) (ssn : Session) :
    ∃ added : List Registration,
      (ep.OnSessionOpen k w ssn).1.registered = ssn.registered ++ added ∧
      ((ep.config.onSessionOpenVerb ≠ "" ∧
          (ep.send w ep.config.onSessionOpenVerb
            (.OnSessionOpenRequest ssn.Jobs ssn.Nodes ssn.Queues ssn.NamespaceInfo
              ssn.RevocableNodes) (none : Option (Decoder Unit)) ()).err ≠ none ∧
          ep.config.ignorable = false) → added = []) ∧
      (¬ (ep.config.onSessionOpenVerb ≠ "" ∧
          (ep.send w ep.config.onSessionOpenVerb
            (.OnSessionOpenRequest ssn.Jobs ssn.Nodes ssn.Queues ssn.NamespaceInfo
              ssn.RevocableNodes) (none : Option (Decoder Unit)) ()).err ≠ none ∧
          ep.config.ignorable = false) →
        (HookKind.predicate ∈ added.map Registration.kind ↔ ep.config.predicateVerb ≠ "") ∧
        (HookKind.prioritize ∈ added.map Registration.kind ↔ ep.config.prioritizeVerb ≠ "") ∧
        (HookKind.preemptable ∈ added.map Registration.kind ↔
          ep.config.preemptableVerb ≠ "") ∧
        (HookKind.reclaimable ∈ added.map Registration.kind ↔
          ep.config.reclaimableVerb ≠ "") ∧
        (HookKind.jobEnqueueable ∈ added.map Registration.kind ↔
          ep.config.jobEnqueueableVerb ≠ "") ∧
        (HookKind.queueOverused ∈ added.map Registration.kind ↔
          ep.config.queueOverusedVerb ≠ "") ∧
        (HookKind.jobReady ∈ added.map Registration.kind ↔ ep.config.jobReadyVerb ≠ "") ∧
        (∀ reg ∈ added, ∀ name, reg.plugin = some name → name = "extender") ∧
        ∃ eh, added.filterMap Registration.eventHandler = [eh] ∧
          (eh.AllocateFunc.isSome = true ↔ ep.config.allocateFuncVerb ≠ "") ∧
          (eh.DeallocateFunc.isSome = true ↔ ep.config.deallocateFuncVerb ≠ "")) ∧
      (ep.OnSessionOpen k w ssn).2.length ≤ 1 ∧
      ∀ req ∈ (ep.OnSessionOpen k w ssn).2,
        ep.config.onSessionOpenVerb ≠ "" ∧
        req.URL = TrimRight ep.config.urlPrefix "/" ++ "/" ++ ep.config.onSessionOpenVerb := by
  have hreg := OnSessionOpen_registered k ep w ssn
  have hsent := OnSessionOpen_sent k ep w ssn
  have hone := send_sent ep w ep.config.onSessionOpenVerb
    (.OnSessionOpenRequest ssn.Jobs ssn.Nodes ssn.Queues ssn.NamespaceInfo
      ssn.RevocableNodes) (none : Option (Decoder Unit)) ()
  have hreqs : (ep.OnSessionOpen k w ssn).2.length ≤ 1 ∧
      ∀ req ∈ (ep.OnSessionOpen k w ssn).2,
        ep.config.onSessionOpenVerb ≠ "" ∧
        req.URL = TrimRight ep.config.urlPrefix "/" ++ "/" ++ ep.config.onSessionOpenVerb := by
    rw [hsent]
    by_cases hv : ep.config.onSessionOpenVerb = ""
    · simp [hv]
    · rw [if_pos hv]
      exact ⟨hone.1, fun req hreq => ⟨hv, (hone.2 req hreq).2⟩⟩
  by_cases habort : ep.config.onSessionOpenVerb ≠ "" ∧
      (ep.send w ep.config.onSessionOpenVerb
        (.OnSessionOpenRequest ssn.Jobs ssn.Nodes ssn.Queues ssn.NamespaceInfo
          ssn.RevocableNodes) (none : Option (Decoder Unit)) ()).err ≠ none ∧
      ep.config.ignorable = false
  · rw [if_pos habort] at hreg
    exact ⟨[], by simpa using hreg, fun _ => rfl, fun h => absurd habort h, hreqs⟩
  · rw [if_neg habort] at hreg
    refine ⟨_, hreg, fun h => absurd h habort, fun _ => ?_, hreqs⟩
    refine ⟨?_, ?_, ?_, ?_, ?_, ?_, ?_, ?_, ?_⟩
    · by_cases h : ep.config.predicateVerb = "" <;> simp [h, Registration.kind]
    · by_cases h : ep.config.prioritizeVerb = "" <;> simp [h, Registration.kind]
    · by_cases h : ep.config.preemptableVerb = "" <;> simp [h, Registration.kind]
    · by_cases h : ep.config.reclaimableVerb = "" <;> simp [h, Registration.kind]
    · by_cases h : ep.config.jobEnqueueableVerb = "" <;> simp [h, Registration.kind]
    · by_cases h : ep.config.queueOverusedVerb = "" <;> simp [h, Registration.kind]
    · by_cases h : ep.config.jobReadyVerb = "" <;> simp [h, Registration.kind]
    · intro reg hmem name hname
      simp only [List.mem_append, List.mem_ite_nil_right, List.mem_singleton] at hmem
      rcases hmem with ((((((⟨_, h⟩ | ⟨_, h⟩) | ⟨_, h⟩) | ⟨_, h⟩) | ⟨_, h⟩) | ⟨_, h⟩) | ⟨_, h⟩) | h
      all_goals
        subst h
        simp only [Registration.plugin, Option.some.injEq] at hname
        first
          | exact hname.symm.trans rfl
          | exact absurd hname (by simp)
    · refine ⟨{ AllocateFunc :=
                  if ep.config.allocateFuncVerb ≠ "" then
                    some (eventHandlerFunc ep "AllocateFunc") else none
                DeallocateFunc :=
                  if ep.config.deallocateFuncVerb ≠ "" then
                    some (eventHandlerFunc ep "DeallocateFunc") else none }, ?_, ?_, ?_⟩
      · have hnil : ∀ (c : Prop) [Decidable c] (reg : Registration),
            reg.eventHandler = none →
            List.filterMap Registration.eventHandler (if c then [reg] else []) = [] := by
          intro c _ reg hnone
          split <;> simp [hnone]
        simp only [List.filterMap_append]
        rw [hnil _ (.AddPredicateFn PluginName (ep.predicateFn k)) rfl,
          hnil _ (.AddBatchNodeOrderFn PluginName ep.batchNodeOrderFn) rfl,
          hnil _ (.AddPreemptableFn PluginName (ep.preemptableFn k)) rfl,
          hnil _ (.AddReclaimableFn PluginName (ep.reclaimableFn k)) rfl,
          hnil _ (.AddJobEnqueueableFn PluginName (ep.jobEnqueueableFn k)) rfl,
          hnil _ (.AddOverusedFn PluginName ep.overusedFn) rfl,
          hnil _ (.AddJobReadyFn PluginName ep.jobReadyFn) rfl]
        rfl
      · by_cases h : ep.config.allocateFuncVerb = "" <;> simp [h]
      · by_cases h : ep.config.deallocateFuncVerb = "" <;> simp [h]

/-- C10, at concrete inputs: only the predicate and the allocate verb are set.  With
the session-open verb set, ignorable false and an extender answering 500, nothing is
registered on the fresh session; with ignorable true the predicate hook is
registered and the prioritize hook is not. -/
theorem OnSessionOpen_registers_configured_hooks_witness :
    ((sparsePlugin "onSessionOpen" false).config.onSessionOpenVerb ≠ "" ∧
      ((sparsePlugin "onSessionOpen" false).send (World.echo (.ok ⟨500, ""⟩))
        (sparsePlugin "onSessionOpen" false).config.onSessionOpenVerb
        (.OnSessionOpenRequest demoSession.Jobs demoSession.Nodes demoSession.Queues
          demoSession.NamespaceInfo demoSession.RevocableNodes)
        (none : Option (Decoder Unit)) ()).err ≠ none ∧
      (sparsePlugin "onSessionOpen" false).config.ignorable = false) ∧
    (((sparsePlugin "onSessionOpen" false).OnSessionOpen demoConstants
      (World.echo (.ok ⟨500, ""⟩)) demoSession).1.registered.map Registration.kind = []) ∧
    ¬ ((sparsePlugin "onSessionOpen" true).config.onSessionOpenVerb ≠ "" ∧
      ((sparsePlugin "onSessionOpen" true).send (World.echo (.ok ⟨500, ""⟩))
        (sparsePlugin "onSessionOpen" true).config.onSessionOpenVerb
        (.OnSessionOpenRequest demoSession.Jobs demoSession.Nodes demoSession.Queues
          demoSession.NamespaceInfo demoSession.RevocableNodes)
        (none : Option (Decoder Unit)) ()).err ≠ none ∧
      (sparsePlugin "onSessionOpen" true).config.ignorable = false) ∧
    HookKind.predicate ∈ ((sparsePlugin "onSessionOpen" true).OnSessionOpen demoConstants
      (World.echo (.ok ⟨500, ""⟩)) demoSession).1.registered.map Registration.kind ∧
    HookKind.prioritize ∉ ((sparsePlugin "onSessionOpen" true).OnSessionOpen demoConstants
      (World.echo (.ok ⟨500, ""⟩)) demoSession).1.registered.map Registration.kind := by
  refine ⟨by decide, ?_, by decide, ?_, ?_⟩
  · obtain ⟨added, hreg, habort, _⟩ := OnSessionOpen_registers_configured_hooks demoConstants
      (sparsePlugin "onSessionOpen" false) (World.echo (.ok ⟨500, ""⟩)) demoSession
    rw [hreg, habort (by decide)]
    rfl
  · obtain ⟨added, hreg, _, hadded, _⟩ := OnSessionOpen_registers_configured_hooks
      demoConstants (sparsePlugin "onSessionOpen" true) (World.echo (.ok ⟨500, ""⟩)) demoSession
    rw [hreg]
    exact (hadded (by decide)).1.mpr (by decide)
  · obtain ⟨added, hreg, _, hadded, _⟩ := OnSessionOpen_registers_configured_hooks
      demoConstants (sparsePlugin "onSessionOpen" true) (World.echo (.ok ⟨500, ""⟩)) demoSession
    rw [hreg]
    exact fun h => absurd ((hadded (by decide)).2.1.mp h) (by decide)

/-! ## The transport -/

/-- The function `strings.TrimRight` with the cutset "/" removes the trailing slashes and
nothing else: the string is the result followed by slashes only, and the result does
not end in a slash. -/
theorem TrimRight_slash (s : String) :
    (∃ n, s.data = (TrimRight s "/").data ++ List.replicate n '/') ∧
    (TrimRight s "/").data.getLast? ≠ some '/' := by
  have hp : ∀ c : Char, ("/" : String).data.contains c = true ↔ c = '/' := by
    intro c
    have hdata : ("/" : String).data = ['/'] := rfl
    simp [hdata]
  constructor
  · refine ⟨(s.data.reverse.takeWhile (fun c => ("/" : String).data.contains c)).length, ?_⟩
    have hsplit := List.takeWhile_append_dropWhile
      (fun c => ("/" : String).data.contains c) s.data.reverse
    have hrev : s.data =
        (s.data.reverse.dropWhile (fun c => ("/" : String).data.contains c)).reverse ++
        (s.data.reverse.takeWhile (fun c => ("/" : String).data.contains c)).reverse := by
      rw [← List.reverse_append, hsplit, List.reverse_reverse]
    have hall : (s.data.reverse.takeWhile (fun c => ("/" : String).data.contains c)).reverse
        = List.replicate
          (s.data.reverse.takeWhile (fun c => ("/" : String).data.contains c)).length '/' := by
      rw [List.eq_replicate_iff]
      refine ⟨by simp, ?_⟩
      intro b hb
      exact (hp b).mp (List.mem_takeWhile_imp (List.mem_reverse.mp hb))
    rw [← hall]
    exact hrev
  · intro hlast
    have hhead : (s.data.reverse.dropWhile
        (fun c => ("/" : String).data.contains c)).head? = some '/' := by
      simpa [TrimRight] using hlast
    have hnot := List.head?_dropWhile_not (fun c => ("/" : String).data.contains c)
      s.data.reverse
    rw [hhead] at hnot
    have hyes : ("/" : String).data.contains '/' = true := (hp '/').mpr rfl
    simp [hyes] at hnot

/-- C11, as the code has it: for every verb, payload and result slot, every request
`send` hands to the client is a POST to the URL made of `urlPrefix` without its trailing
slashes, a slash and the verb.  When the payload marshals, the request is accepted and
the client returns a response, that one request is sent and: `send` returns an error
when the status of the response is not 200, which covers every status that is not
2xx; it returns no error for a status of 200 when the slot is nil, whatever the body,
and leaves the slot as it was. -/
theorem send_status_and_url {R : Type} (ep : extenderPlugin) (w : World) (action : String)
    (args : Payload) (result : Option (Decoder R)) (resp : R) :
    (∀ req ∈ (ep.send w action args result resp).sent,
      req.Method = "POST" ∧ req.URL = TrimRight ep.config.urlPrefix "/" ++ "/" ++ action) ∧
    ((∃ n, ep.config.urlPrefix.data =
        (TrimRight ep.config.urlPrefix "/").data ++ List.replicate n '/') ∧
      (TrimRight ep.config.urlPrefix "/").data.getLast? ≠ some '/') ∧
    (∀ (out : String) (r : Response),
      w.Marshal args = .ok out →
      w.NewRequest "POST" (TrimRight ep.config.urlPrefix "/" ++ "/" ++ action) = none →
      w.Do ⟨"POST", TrimRight ep.config.urlPrefix "/" ++ "/" ++ action,
        "application/json", out⟩ = .ok r →
      (ep.send w action args result resp).sent =
        [⟨"POST", TrimRight ep.config.urlPrefix "/" ++ "/" ++ action,
          "application/json", out⟩] ∧
      (r.StatusCode ≠ 200 → (ep.send w action args result resp).err ≠ none) ∧
      (¬ (200 ≤ r.StatusCode ∧ r.StatusCode < 300) →
        (ep.send w action args result resp).err ≠ none) ∧
      (r.StatusCode = 200 → result = none →
        (ep.send w action args result resp).err = none ∧
        (ep.send w action args result resp).resp = resp)) := by
  refine ⟨(send_sent ep w action args result resp).2, TrimRight_slash _, ?_⟩
  intro out r hm hn hd
  have hbad : r.StatusCode ≠ 200 → (ep.send w action args result resp).err ≠ none := by
    intro hs
    rw [send_status_not_ok ep w action args result resp out r hm hn hd hs]
    exact Option.some_ne_none _
  refine ⟨?_, hbad, ?_, ?_⟩
  · by_cases hs : r.StatusCode = StatusOK
    · cases result <;> simp [extenderPlugin.send, hm, hn, hd, hs]
    · simp [extenderPlugin.send, hm, hn, hd, hs]
  · intro hnot
    apply hbad
    intro hs
    exact hnot (by omega)
  · intro hs hnil
    have hs' : r.StatusCode = StatusOK := hs
    subst hnil
    simp [extenderPlugin.send, hm, hn, hd, hs']

/-- C11, at concrete inputs: the prefix is "http://127.0.0.1/" and the verb
"onSessionClose"; the request goes to "http://127.0.0.1/onSessionClose"; an answer
of 200 with a body and a nil slot gives no error, an answer of 500 gives an error. -/
theorem send_status_and_url_witness :
    (demoPlugin false []).config.urlPrefix = "http://127.0.0.1/" ∧
    ((demoPlugin false []).send (World.echo (.ok ⟨200, "ignored"⟩)) "onSessionClose"
      .OnSessionCloseRequest (none : Option (Decoder Unit)) ()).sent =
        [⟨"POST", "http://127.0.0.1/onSessionClose", "application/json", ""⟩] ∧
    ((demoPlugin false []).send (World.echo (.ok ⟨200, "ignored"⟩)) "onSessionClose"
      .OnSessionCloseRequest (none : Option (Decoder Unit)) ()).err = none ∧
    ((demoPlugin false []).send (World.echo (.ok ⟨500, ""⟩)) "onSessionClose"
      .OnSessionCloseRequest (none : Option (Decoder Unit)) ()).err ≠ none :=
  ⟨rfl,
    ((send_status_and_url (demoPlugin false []) (World.echo (.ok ⟨200, "ignored"⟩))
      "onSessionClose" .OnSessionCloseRequest (none : Option (Decoder Unit)) ()).2.2
      "" ⟨200, "ignored"⟩ rfl rfl rfl).1.trans (by decide),
    (((send_status_and_url (demoPlugin false []) (World.echo (.ok ⟨200, "ignored"⟩))
      "onSessionClose" .OnSessionCloseRequest (none : Option (Decoder Unit)) ()).2.2
      "" ⟨200, "ignored"⟩ rfl rfl rfl).2.2.2 rfl rfl).1,
    ((send_status_and_url (demoPlugin false []) (World.echo (.ok ⟨500, ""⟩))
      "onSessionClose" .OnSessionCloseRequest (none : Option (Decoder Unit)) ()).2.2
      "" ⟨500, ""⟩ rfl rfl rfl).2.2.1 (by decide)⟩

/-- C11 as stated fails: the extender answers 204, a 2xx status, to a call with a nil
slot; `send` returns the status error, since it accepts the status 200 only. -/
theorem send_rejects_204_with_nil_slot :
    (200 ≤ (204 : Nat) ∧ (204 : Nat) < 300) ∧
    (World.echo (.ok ⟨204, ""⟩)).Do
      ⟨"POST", "http://127.0.0.1/onSessionClose", "application/json", ""⟩ = .ok ⟨204, ""⟩ ∧
    ((demoPlugin false []).send (World.echo (.ok ⟨204, ""⟩)) "onSessionClose"
      .OnSessionCloseRequest (none : Option (Decoder Unit)) ()).err =
        some ⟨"failed onSessionClose with extender at URL "
          ++ "http://127.0.0.1/onSessionClose, code 204"⟩ :=
  ⟨by decide, rfl, by decide⟩

end Extender
